import Mathlib

/-!
# Verification of the chat-server realtime core (`src/server.js`)

Shallow embedding of the presence registry (`usuarios_conectados`, a JS
`Map` keyed by userId), the Socket.IO gateway handlers (`connection`,
`send_message`, `typing`, `stop_typing`, `disconnect`) and the HTTP
handlers the claims mention (`GET /api/contacts`, `POST /api/contacts/add`,
`POST /api/users/search`, `GET /api/messages/:userId`).

External collaborators (the Supabase store, the jsonwebtoken codec) are
represented by explicit outcome parameters: each handler takes the result
the awaited external call produced, exactly where the source awaits it.
The `supabase-js` client reports database failures as an `error` field in
its result value (it does not throw), so store outcomes are values of
`Except`/`Option` type, never control-flow exceptions.
-/

namespace ChatServer

/-- Value stored for a connected user in `usuarios_conectados`
(`{ socketId, email, connectedAt }`, server.js lines 675-679). -/
structure ConnInfo where
  socketId : String
  email : String
  connectedAt : Nat
deriving Repr, DecidableEq

/-- The presence registry `usuarios_conectados`: a JS `Map` from userId to
`ConnInfo`, embedded as an association list.  A JS `Map` holds at most one
entry per key; `NodupKeys` states that invariant. -/
abbrev Registry := List (String × ConnInfo)

/-- `Map.get(k)` (server.js line 719): first entry with the given key. -/
def mapGet : Registry → String → Option ConnInfo
  | [], _ => none
  | (k', v') :: rest, k => if k' = k then some v' else mapGet rest k

/-- `Map.set(k, v)` (server.js line 675): overwrite the entry for `k` in
place if present, otherwise append a new entry (JS `Map` insertion order). -/
def mapSet : Registry → String → ConnInfo → Registry
  | [], k, v => [(k, v)]
  | (k', v') :: rest, k, v =>
      if k' = k then (k, v) :: rest else (k', v') :: mapSet rest k v

/-- `Map.delete(k)` (server.js line 770): remove the entry for `k`.  A JS
`Map` has at most one entry per key, so removing every entry with that key
is the same operation. -/
def mapDelete : Registry → String → Registry
  | [], _ => []
  | (k', v') :: rest, k =>
      if k' = k then mapDelete rest k else (k', v') :: mapDelete rest k

/-- `Map.size` (server.js line 689). -/
def mapSize (m : Registry) : Nat := m.length

/-- `Array.from(map.keys())` (server.js line 690): the online userIds. -/
def mapKeys (m : Registry) : List String := m.map Prod.fst

/-- Number of registry entries carrying the given userId. -/
def countKey (m : Registry) (k : String) : Nat :=
  m.countP fun p => p.1 == k

/-- The JS `Map` invariant: at most one entry per key (holds for every
registry reachable from the empty map by `set`/`delete`). -/
def NodupKeys (m : Registry) : Prop := (mapKeys m).Nodup

instance (m : Registry) : Decidable (NodupKeys m) :=
  inferInstanceAs (Decidable (mapKeys m).Nodup)

/-! ## Registry lemmas -/

theorem mapGet_mapSet_self (m : Registry) (k : String) (v : ConnInfo) :
    mapGet (mapSet m k v) k = some v := by
  induction m with
  | nil => simp [mapSet, mapGet]
  | cons p rest ih =>
      obtain ⟨k', v'⟩ := p
      by_cases h : k' = k
      · simp [mapSet, h, mapGet]
      · simp [mapSet, h, mapGet, ih]

theorem countKey_eq_zero_of_not_mem (m : Registry) (k : String)
    (h : k ∉ mapKeys m) : countKey m k = 0 := by
  induction m with
  | nil => simp [countKey]
  | cons p rest ih =>
      simp only [mapKeys, List.map_cons, List.mem_cons, not_or] at h
      have hh : ¬(p.1 == k) = true := by
        simpa [beq_iff_eq] using fun he => h.1 he.symm
      simp only [countKey, List.countP_cons, hh, if_false, cond_false]
      simpa [countKey, mapKeys] using ih h.2

theorem mem_mapKeys_mapSet (m : Registry) (k a : String) (v : ConnInfo) :
    a ∈ mapKeys (mapSet m k v) ↔ a = k ∨ a ∈ mapKeys m := by
  induction m with
  | nil => simp [mapSet, mapKeys]
  | cons p rest ih =>
      obtain ⟨k', v'⟩ := p
      by_cases h : k' = k
      · subst h
        simp [mapSet, mapKeys]
      · simp only [mapSet, if_neg h, mapKeys, List.map_cons, List.mem_cons]
        rw [show (mapKeys (mapSet rest k v) = (mapSet rest k v).map Prod.fst) from rfl] at ih
        rw [show (mapKeys rest = rest.map Prod.fst) from rfl] at ih
        tauto

theorem nodupKeys_mapSet (m : Registry) (k : String) (v : ConnInfo)
    (h : NodupKeys m) : NodupKeys (mapSet m k v) := by
  induction m with
  | nil => simp [mapSet, NodupKeys, mapKeys]
  | cons p rest ih =>
      obtain ⟨k', v'⟩ := p
      simp only [NodupKeys, mapKeys, List.map_cons, List.nodup_cons] at h
      by_cases hk : k' = k
      · subst hk
        simpa [mapSet, NodupKeys, mapKeys, List.nodup_cons] using h
      · have htail := ih h.2
        simp only [mapSet, if_neg hk, NodupKeys, mapKeys, List.map_cons,
          List.nodup_cons]
        refine ⟨?_, htail⟩
        intro hmem
        rcases (mem_mapKeys_mapSet rest k k' v).mp hmem with he | he
        · exact hk he
        · exact h.1 he

theorem countKey_mapSet_self (m : Registry) (k : String) (v : ConnInfo)
    (h : NodupKeys m) : countKey (mapSet m k v) k = 1 := by
  induction m with
  | nil => simp [mapSet, countKey]
  | cons p rest ih =>
      obtain ⟨k', v'⟩ := p
      simp only [NodupKeys, mapKeys, List.map_cons, List.nodup_cons] at h
      by_cases hk : k' = k
      · subst hk
        have hz : countKey rest k' = 0 :=
          countKey_eq_zero_of_not_mem rest k' h.1
        simp [mapSet, countKey, List.countP_cons] at hz ⊢
        simpa [countKey] using hz
      · have := ih h.2
        simp [mapSet, if_neg hk, countKey, List.countP_cons, hk] at this ⊢
        simpa [countKey] using this

theorem countKey_le_one_of_nodup (m : Registry) (k : String)
    (h : NodupKeys m) : countKey m k ≤ 1 := by
  induction m with
  | nil => simp [countKey]
  | cons p rest ih =>
      simp only [NodupKeys, mapKeys, List.map_cons, List.nodup_cons] at h
      by_cases hk : p.1 = k
      · have hz : countKey rest k = 0 := by
          apply countKey_eq_zero_of_not_mem
          rw [← hk]; exact h.1
        simp [countKey, List.countP_cons, hk] at hz ⊢
        simpa [countKey] using hz
      · have := ih h.2
        simpa [countKey, List.countP_cons, hk] using this

theorem mapDelete_idem (m : Registry) (k : String) :
    mapDelete (mapDelete m k) k = mapDelete m k := by
  induction m with
  | nil => simp [mapDelete]
  | cons p rest ih =>
      obtain ⟨k', v'⟩ := p
      by_cases h : k' = k
      · simp [mapDelete, h, ih]
      · simp [mapDelete, h, ih]

theorem mapDelete_of_get_none (m : Registry) (k : String)
    (h : mapGet m k = none) : mapDelete m k = m := by
  induction m with
  | nil => simp [mapDelete]
  | cons p rest ih =>
      obtain ⟨k', v'⟩ := p
      by_cases hk : k' = k
      · simp [mapGet, hk] at h
      · simp only [mapGet, if_neg hk] at h
        simp [mapDelete, hk, ih h]

theorem mapGet_mapDelete_self (m : Registry) (k : String) :
    mapGet (mapDelete m k) k = none := by
  induction m with
  | nil => simp [mapDelete, mapGet]
  | cons p rest ih =>
      obtain ⟨k', v'⟩ := p
      by_cases h : k' = k
      · simp [mapDelete, h, ih]
      · simp [mapDelete, h, mapGet, ih]

theorem not_mem_mapKeys_mapDelete (m : Registry) (k : String) :
    k ∉ mapKeys (mapDelete m k) := by
  induction m with
  | nil => simp [mapDelete, mapKeys]
  | cons p rest ih =>
      obtain ⟨k', v'⟩ := p
      by_cases h : k' = k
      · simpa [mapDelete, h] using ih
      · simpa [mapDelete, h, mapKeys] using ⟨fun he => h he.symm, by
          simpa [mapKeys] using ih⟩

theorem mapSize_pos_mapSet (m : Registry) (k : String) (v : ConnInfo) :
    1 ≤ mapSize (mapSet m k v) := by
  induction m with
  | nil => simp [mapSet, mapSize]
  | cons p rest ih =>
      obtain ⟨k', v'⟩ := p
      by_cases h : k' = k <;> simp [mapSet, h, mapSize]

/-! ## Messages and the Store's `mensajes` table -/

/-- A row of the `mensajes` table, as returned by
`insert(...).select().single()` (server.js lines 701-710). -/
structure Message where
  id : Nat
  remitente_id : String
  destinatario_id : String
  contenido : String
  tipo : String
  created_at : String
  leido : Bool
deriving Repr, DecidableEq

/-- The row the Store builds for
`insert({ remitente_id, destinatario_id, contenido, tipo })`
(server.js lines 703-708); `id` and `created_at` are assigned by the
database, `leido` defaults to false. -/
def mkMensaje (remitente destinatario contenido tipo : String)
    (newId : Nat) (ts : String) : Message :=
  ⟨newId, remitente, destinatario, contenido, tipo, ts, false⟩

/-- Modelled from the spec: the Directory & Store collaborator (the
Supabase `mensajes` table) is external to src; its persistence of a
successfully created message record is modelled as appending the row the
insert returned. -/
def insertMensaje (tbl : List Message) (msg : Message) : List Message :=
  tbl ++ [msg]

/-! ## Realtime events -/

/-- Outbound Socket.IO event payloads emitted by the gateway. -/
inductive Payload where
  | userOnline (user_id email : String)
  | usersOnline (count : Nat) (users : List String)
  | newMessage (msg : Message)
  | messageSent (id : Nat) (timestamp : String) (delivered : Bool)
  | messageError (error : String)
  | userTyping (user_id : String)
  | userStopTyping (user_id : String)
  | userOffline (user_id : String)
deriving Repr, DecidableEq

/-- An emission with its addressing: `io.to(sid).emit` / `socket.emit`
target one socket; `socket.broadcast.emit` reaches every connected socket
except the emitting one. -/
inductive Emit where
  | toSocket (sid : String) (p : Payload)
  | broadcastExcept (sid : String) (p : Payload)
deriving Repr, DecidableEq

/-- Which payload (if any) the socket `sid` receives from one emission. -/
def receives (e : Emit) (sid : String) : Option Payload :=
  match e with
  | .toSocket target p => if sid = target then some p else none
  | .broadcastExcept sender p => if sid = sender then none else some p

/-- One step a handler performs, in program order: a call into the Store
or an emission. -/
inductive Action where
  | storeInsertMensaje (remitente destinatario contenido tipo : String)
  | storeMarkOffline (user_id : String)
  | storeSearchUsuarios (pattern excludeId : String) (limit : Nat)
  | storeCheckUsuario (id : String)
  | storeCheckContacto (usuario_id contacto_id : String)
  | storeInsertContacto (usuario_id contacto_id : String)
  | emit (e : Emit)
deriving Repr, DecidableEq

/-- The emissions of an action trace, in order. -/
def emitsOf (l : List Action) : List Emit :=
  l.filterMap fun a => match a with | .emit e => some e | _ => none

/-- All payloads the socket `sid` receives from a list of emissions. -/
def receivedPayloads (es : List Emit) (sid : String) : List Payload :=
  es.filterMap fun e => receives e sid

/-! ## Gateway handlers -/

/-- The `io.use` authentication middleware (server.js lines 659-669).
`verified` is the outcome of `jwt.verify(socket.handshake.auth.token)` by
the external token codec: `none` when the token is missing, malformed,
badly signed or expired (all of which make `jwt.verify` throw), otherwise
`some (userId, email)` from the decoded payload. -/
def ioUse (verified : Option (String × String)) :
    Except String (String × String) :=
  match verified with
  | none => Except.error "Autenticación fallida"
  | some idy => Except.ok idy

/-- The `io.on('connection')` body (server.js lines 671-691): insert into
`usuarios_conectados`, broadcast `user_online` to the others, send the
`users_online` snapshot (computed from the post-insert map) to the new
socket. -/
def connectionHandler (reg : Registry) (userId email socketId : String)
    (now : Nat) : Registry × List Emit :=
  let reg2 := mapSet reg userId ⟨socketId, email, now⟩
  (reg2,
   [Emit.broadcastExcept socketId (Payload.userOnline userId email),
    Emit.toSocket socketId
      (Payload.usersOnline (mapSize reg2) (mapKeys reg2))])

/-- A full connection attempt: middleware, then (only on success) the
connection handler.  On failure the socket is rejected and the registry is
untouched. -/
def connectionAttempt (verified : Option (String × String))
    (reg : Registry) (socketId : String) (now : Nat) :
    Registry × Except String (List Emit) :=
  match ioUse verified with
  | .error e => (reg, Except.error e)
  | .ok (userId, email) =>
      let r := connectionHandler reg userId email socketId now
      (r.1, Except.ok r.2)

/-- The `socket.on('send_message')` handler (server.js lines 694-738) as
an action trace.  `ty` is the optional `type` field (default `'texto'`);
`storeRes` is the outcome of the awaited
`insert(...).select().single()`: `.error` when the Store reported an
error, `.ok mensaje` with the persisted row otherwise. -/
def sendMessageHandler (reg : Registry)
    (senderId senderSid receiver_id text : String) (ty : Option String)
    (storeRes : Except String Message) : List Action :=
  Action.storeInsertMensaje senderId receiver_id text (ty.getD "texto") ::
  (match storeRes with
   | .error _ =>
      [Action.emit (Emit.toSocket senderSid
        (Payload.messageError "Error guardando mensaje"))]
   | .ok mensaje =>
      (match mapGet reg receiver_id with
       | some receptor =>
          [Action.emit (Emit.toSocket receptor.socketId
            (Payload.newMessage mensaje))]
       | none => []) ++
      [Action.emit (Emit.toSocket senderSid
        (Payload.messageSent mensaje.id mensaje.created_at
          (mapGet reg receiver_id).isSome))])

/-- The `socket.on('typing')` handler (server.js lines 741-748): pure
relay, dropped when the recipient is offline. -/
def typingHandler (reg : Registry) (senderId receiver_id : String) :
    List Emit :=
  match mapGet reg receiver_id with
  | some receptor =>
      [Emit.toSocket receptor.socketId (Payload.userTyping senderId)]
  | none => []

/-- The `socket.on('stop_typing')` handler (server.js lines 750-757). -/
def stopTypingHandler (reg : Registry) (senderId receiver_id : String) :
    List Emit :=
  match mapGet reg receiver_id with
  | some receptor =>
      [Emit.toSocket receptor.socketId (Payload.userStopTyping senderId)]
  | none => []

/-- The `socket.on('disconnect')` handler (server.js lines 760-776):
await the Store's "mark offline" update — whose result the source
discards (`supabase-js` returns failures as values, it does not throw) —
then delete the registry entry and broadcast `user_offline` to every
other socket. -/
def disconnectHandler (storeRes : Except String Unit) (reg : Registry)
    (userId socketId : String) : Registry × List Action :=
  match storeRes with
  | .error _ =>
      (mapDelete reg userId,
       [Action.storeMarkOffline userId,
        Action.emit (Emit.broadcastExcept socketId
          (Payload.userOffline userId))])
  | .ok _ =>
      (mapDelete reg userId,
       [Action.storeMarkOffline userId,
        Action.emit (Emit.broadcastExcept socketId
          (Payload.userOffline userId))])

/-! ## Message history route -/

/-- The `or(and(...),and(...))` filter of `GET /api/messages/:userId`
(server.js line 578): messages in either direction between the two
users. -/
def mensajesBetween (tbl : List Message) (userId otro : String) :
    List Message :=
  tbl.filter fun m =>
    (m.remitente_id == userId && m.destinatario_id == otro) ||
    (m.remitente_id == otro && m.destinatario_id == userId)

/-- Insert a message into a list sorted by `created_at` ascending. -/
def insertByCreatedAt (m : Message) : List Message → List Message
  | [] => [m]
  | x :: xs =>
      if m.created_at ≤ x.created_at then m :: x :: xs
      else x :: insertByCreatedAt m xs

/-- `order('created_at', { ascending: true })` (server.js line 579). -/
def sortByCreatedAt (l : List Message) : List Message :=
  l.foldr insertByCreatedAt []

/-- The success path of `GET /api/messages/:userId` (server.js lines
568-606): respond with the two users' messages ordered oldest→newest, and
mark the unread messages from the peer as read.  First component: the
response body; second: the `mensajes` table after the read-marking
update. -/
def getMessagesRoute (tbl : List Message) (userId otroUsuarioId : String) :
    List Message × List Message :=
  (sortByCreatedAt (mensajesBetween tbl userId otroUsuarioId),
   tbl.map fun m =>
     if m.remitente_id == otroUsuarioId && m.destinatario_id == userId &&
        !m.leido
     then { m with leido := true } else m)

/-! ## `GET /api/contacts` -/

/-- The joined `usuarios` record selected by the contacts query
(server.js lines 370-376). -/
structure UsuarioJoin where
  id : String
  nombre : String
  foto : Option String
  last_seen : Option Int
  estado : String
deriving Repr, DecidableEq

/-- One row of the `contactos` query result (server.js lines 366-378). -/
structure ContactoRow where
  contacto_id : String
  usuarios : UsuarioJoin
deriving Repr, DecidableEq

/-- `formatearTiempo` (server.js lines 781-797).  `now` and the stored
timestamp are in milliseconds; `Int.fdiv` is JS `Math.floor` of the
division; `localeDateStr` is the runtime's `toLocaleDateString`. -/
def formatearTiempo (now : Int) (localeDateStr : Int → String)
    (fecha : Option Int) : String :=
  match fecha with
  | none => "Nunca"
  | some f =>
      let diffMs := now - f
      let diffMins := Int.fdiv diffMs 60000
      let diffHours := Int.fdiv diffMs 3600000
      let diffDays := Int.fdiv diffMs 86400000
      if diffMins < 1 then "Ahora"
      else if diffMins < 60 then s!"Hace {diffMins} min"
      else if diffHours < 24 then s!"Hace {diffHours}h"
      else if diffDays = 1 then "Ayer"
      else if diffDays < 7 then s!"Hace {diffDays} días"
      else localeDateStr f

/-- The contact record the handler actually builds (server.js lines
398-404): five fields only. -/
structure ContactFormatted where
  id : String
  username : String
  foto : String
  ultimo_acceso : String
  online : Bool
deriving Repr, DecidableEq

/-- The map callback of server.js lines 398-404; `foto || 'default.jpg'`
substitutes the default on `null`/empty. -/
def formatContact (now : Int) (localeDateStr : Int → String)
    (item : ContactoRow) : ContactFormatted :=
  { id := item.usuarios.id
    username := item.usuarios.nombre
    foto := match item.usuarios.foto with
            | none => "default.jpg"
            | some f => if f = "" then "default.jpg" else f
    ultimo_acceso := formatearTiempo now localeDateStr item.usuarios.last_seen
    online := item.usuarios.estado == "online" }

/-- The hard-coded fallback contact (server.js lines 383-394), the only
response shape carrying all eight documented fields. -/
structure DemoContact where
  id : String
  username : String
  foto : Option String
  online : Bool
  ultimo_acceso : String
  ultimoMensaje : String
  horaUltimoMensaje : String
  mensajesNoLeidos : Nat
deriving Repr, DecidableEq

/-- The demo list returned when the contacts query errors. -/
def demoContacts : List DemoContact :=
  [{ id := "demo-user"
     username := "Usuario Demo"
     foto := none
     online := true
     ultimo_acceso := "Ahora"
     ultimoMensaje := "Hola, ¿cómo estás?"
     horaUltimoMensaje := "14:30"
     mensajesNoLeidos := 0 }]

/-- Body of a `GET /api/contacts` response. -/
inductive ContactsBody where
  | formatted (l : List ContactFormatted)
  | demo (l : List DemoContact)
deriving Repr

/-- `GET /api/contacts` (server.js lines 360-416): on a Store error the
handler falls back to the demo list with HTTP 200 (`res.json` with no
explicit status); on success it responds 200 with the formatted rows.
(The 500 of the catch block fires only when the handler itself throws,
which no Store *error result* causes.)  Returns (status, body). -/
def getContacts (storeRes : Except String (List ContactoRow)) (now : Int)
    (localeDateStr : Int → String) : Nat × ContactsBody :=
  match storeRes with
  | .error _ => (200, ContactsBody.demo demoContacts)
  | .ok contactos =>
      (200, ContactsBody.formatted
        (contactos.map (formatContact now localeDateStr)))

/-! ## `POST /api/contacts/add` -/

/-- `POST /api/contacts/add` (server.js lines 419-509).  Parameters are
the outcomes of the three awaited Store calls, in program order:
`usuarioExisteRes` for the `usuarios` lookup (`.error` or `.ok none` both
trigger the 404, matching `checkUserError || !usuarioExiste`; `.ok (some
nombre)` carries the contact's name), `existingRes` for the `contactos`
`maybeSingle()` check (`.error code` carries the Supabase error code —
only codes other than `'PGRST116'` are surfaced as 500, `'PGRST116'`
leaves `existingContact` null and the handler proceeds — `.ok b` says
whether a row was found), and `insertRes` for the insert.  The `username`
body field is only logged by the source and is omitted.  Returns the
store-call trace plus (status, message). -/
def addContact (userId : String) (contacto_id : Option String)
    (usuarioExisteRes : Except String (Option String))
    (existingRes : Except String Bool)
    (insertRes : Except String Unit) :
    List Action × Nat × String :=
  match contacto_id with
  | none => ([], 400, "ID del contacto es requerido")
  | some cid =>
      if cid = "" then ([], 400, "ID del contacto es requerido")
      else if userId = cid then ([], 400, "No puedes agregarte a ti mismo")
      else
        match usuarioExisteRes with
        | .error _ =>
            ([Action.storeCheckUsuario cid], 404, "Usuario no encontrado")
        | .ok none =>
            ([Action.storeCheckUsuario cid], 404, "Usuario no encontrado")
        | .ok (some nombre) =>
            let checkedActions :=
              [Action.storeCheckUsuario cid,
               Action.storeCheckContacto userId cid]
            let doInsert : List Action × Nat × String :=
              match insertRes with
              | .error _ =>
                  (checkedActions ++ [Action.storeInsertContacto userId cid],
                   500, "Error al agregar contacto")
              | .ok _ =>
                  (checkedActions ++ [Action.storeInsertContacto userId cid],
                   200, s!"Contacto {nombre} agregado exitosamente")
            match existingRes with
            | .error code =>
                if code = "PGRST116" then doInsert
                else (checkedActions, 500, "Error verificando contacto")
            | .ok true =>
                (checkedActions, 409, "Este usuario ya está en tus contactos")
            | .ok false => doInsert

/-! ## `POST /api/users/search` -/

/-- The ECMAScript WhiteSpace and LineTerminator code points removed by
`String.prototype.trim`. -/
def jsWhitespaceChars : List Char :=
  [' ', '\t', '\n', '\r', '\x0B', '\x0C', '\u00A0', '\u1680',
   '\u2000', '\u2001', '\u2002', '\u2003', '\u2004', '\u2005',
   '\u2006', '\u2007', '\u2008', '\u2009', '\u200A', '\u2028',
   '\u2029', '\u202F', '\u205F', '\u3000', '\uFEFF']

/-- Whether `String.prototype.trim` strips the character. -/
def jsWhitespace (c : Char) : Bool := jsWhitespaceChars.contains c

/-- JS `username.trim()` (server.js lines 518, 529): strip leading and
trailing whitespace. -/
def jsTrim (s : String) : String :=
  ⟨((s.data.dropWhile jsWhitespace).reverse.dropWhile jsWhitespace).reverse⟩

/-- A row of the search query's select (server.js line 528). -/
structure SearchRow where
  id : String
  nombre : String
  telefono : Option String
  email : String
deriving Repr, DecidableEq

/-- Body of a `POST /api/users/search` response. -/
inductive SearchBody where
  | found (id username : String) (telefono : Option String)
  | notFound (message : String)
  | badRequest (message : String)
  | searchError (message : String)
deriving Repr, DecidableEq

/-- `POST /api/users/search` (server.js lines 511-566).  `username` is the
body field (`none` when absent); the guard is the source's
`!username || username.trim().length < 2` (the empty string is falsy).
`storeRes` is the outcome of the `ilike` query, consumed only past the
guard.  Returns the store-call trace plus (status, body). -/
def usersSearchHandler (userId : String) (username : Option String)
    (storeRes : Except String (List SearchRow)) :
    List Action × Nat × SearchBody :=
  if username.getD "" = "" ∨ (jsTrim (username.getD "")).length < 2 then
    ([], 400,
     SearchBody.badRequest
       "El término de búsqueda debe tener al menos 2 caracteres")
  else
    let term := jsTrim (username.getD "")
    let call := Action.storeSearchUsuarios (s!"%{term}%") userId 10
    match storeRes with
    | .error _ =>
        ([call], 500, SearchBody.searchError "Error en la búsqueda")
    | .ok usuarios =>
        match usuarios.head? with
        | some u0 => ([call], 200, SearchBody.found u0.id u0.nombre u0.telefono)
        | none => ([call], 200, SearchBody.notFound "Usuario no encontrado")

/-! ## Sorting helper lemmas -/

theorem mem_insertByCreatedAt {a m : Message} {l : List Message} :
    a ∈ insertByCreatedAt m l ↔ a = m ∨ a ∈ l := by
  induction l with
  | nil => simp [insertByCreatedAt]
  | cons x xs ih =>
      by_cases h : m.created_at ≤ x.created_at
      · simp [insertByCreatedAt, h]
      · simp only [insertByCreatedAt, if_neg h, List.mem_cons, ih]
        tauto

theorem mem_sortByCreatedAt {a : Message} {l : List Message} :
    a ∈ sortByCreatedAt l ↔ a ∈ l := by
  induction l with
  | nil => simp [sortByCreatedAt]
  | cons x xs ih =>
      show a ∈ insertByCreatedAt x (sortByCreatedAt xs) ↔ _
      rw [mem_insertByCreatedAt, ih]
      simp

/-! ## Claim theorems -/

/-- Claim C1: for every `send_message` event the Store insert is the first
action of the handler (so a message record is durably created, or the send
fails explicitly, before any attempt at live delivery), and when
persistence fails the whole trace is the insert followed by a single
`message_error` emission to the sender: the sender receives exactly
`message_error`, every other socket receives nothing, and no delivery is
attempted. -/
theorem send_message_persists_before_delivery
    (reg : Registry) (senderId senderSid receiver_id text : String)
    (ty : Option String) (storeRes : Except String Message)
    (e osid : String) (hos : osid ≠ senderSid) :
    (sendMessageHandler reg senderId senderSid receiver_id text ty
        storeRes).head? =
      some (Action.storeInsertMensaje senderId receiver_id text
        (ty.getD "texto"))
    ∧ sendMessageHandler reg senderId senderSid receiver_id text ty
        (Except.error e) =
      [Action.storeInsertMensaje senderId receiver_id text (ty.getD "texto"),
       Action.emit (Emit.toSocket senderSid
         (Payload.messageError "Error guardando mensaje"))]
    ∧ receivedPayloads (emitsOf (sendMessageHandler reg senderId senderSid
        receiver_id text ty (Except.error e))) senderSid =
      [Payload.messageError "Error guardando mensaje"]
    ∧ receivedPayloads (emitsOf (sendMessageHandler reg senderId senderSid
        receiver_id text ty (Except.error e))) osid = [] := by
  refine ⟨rfl, rfl, ?_, ?_⟩
  · simp [sendMessageHandler, emitsOf, receivedPayloads, receives]
  · simp [sendMessageHandler, emitsOf, receivedPayloads, receives, hos]

theorem send_message_persists_before_delivery_witness :
    receivedPayloads (emitsOf (sendMessageHandler [] "u1" "s1" "u2" "hola"
      none (Except.error "db"))) "s9" = []
    ∧ (sendMessageHandler [] "u1" "s1" "u2" "hola" none
        (Except.error "db")).head? =
      some (Action.storeInsertMensaje "u1" "u2" "hola" "texto") := by
  have h := send_message_persists_before_delivery [] "u1" "s1" "u2" "hola"
    none (Except.error "db") "db" "s9" (by decide)
  exact ⟨h.2.2.2, h.1⟩

/-- Claim C2: when persistence succeeds, an offline recipient (no registry
entry) leaves the sender with `message_sent {delivered:false}` and the
persisted row visible in a later `GET /api/messages/:userId` fetch, while
an online recipient yields `delivered:true` and a `new_message` emission
to the recipient's socket carrying the persisted record itself (hence
matching id and content). -/
theorem send_message_delivery_flags
    (reg : Registry) (senderId senderSid receiver_id text : String)
    (ty : Option String) (tbl : List Message) (newId : Nat) (ts : String) :
    (mapGet reg receiver_id = none →
      sendMessageHandler reg senderId senderSid receiver_id text ty
          (Except.ok
            (mkMensaje senderId receiver_id text (ty.getD "texto") newId ts)) =
        [Action.storeInsertMensaje senderId receiver_id text (ty.getD "texto"),
         Action.emit (Emit.toSocket senderSid
           (Payload.messageSent newId ts false))]
      ∧ mkMensaje senderId receiver_id text (ty.getD "texto") newId ts ∈
          (getMessagesRoute
            (insertMensaje tbl
              (mkMensaje senderId receiver_id text (ty.getD "texto") newId ts))
            senderId receiver_id).1)
    ∧ (∀ receptor, mapGet reg receiver_id = some receptor →
        sendMessageHandler reg senderId senderSid receiver_id text ty
            (Except.ok
              (mkMensaje senderId receiver_id text (ty.getD "texto") newId ts)) =
          [Action.storeInsertMensaje senderId receiver_id text (ty.getD "texto"),
           Action.emit (Emit.toSocket receptor.socketId
             (Payload.newMessage
               (mkMensaje senderId receiver_id text (ty.getD "texto") newId ts))),
           Action.emit (Emit.toSocket senderSid
             (Payload.messageSent newId ts true))]) := by
  constructor
  · intro h
    constructor
    · simp [sendMessageHandler, h, mkMensaje]
    · rw [show (getMessagesRoute
          (insertMensaje tbl
            (mkMensaje senderId receiver_id text (ty.getD "texto") newId ts))
          senderId receiver_id).1 =
        sortByCreatedAt (mensajesBetween
          (insertMensaje tbl
            (mkMensaje senderId receiver_id text (ty.getD "texto") newId ts))
          senderId receiver_id) from rfl]
      rw [mem_sortByCreatedAt]
      simp [mensajesBetween, insertMensaje, List.mem_filter, mkMensaje]
  · intro receptor h
    simp [sendMessageHandler, h, mkMensaje]

theorem send_message_delivery_flags_witness :
    sendMessageHandler [] "u1" "s1" "u2" "hola" none
        (Except.ok (mkMensaje "u1" "u2" "hola" "texto" 7 "t0")) =
      [Action.storeInsertMensaje "u1" "u2" "hola" "texto",
       Action.emit (Emit.toSocket "s1" (Payload.messageSent 7 "t0" false))]
    ∧ mkMensaje "u1" "u2" "hola" "texto" 7 "t0" ∈
        (getMessagesRoute
          (insertMensaje [] (mkMensaje "u1" "u2" "hola" "texto" 7 "t0"))
          "u1" "u2").1
    ∧ sendMessageHandler [("u2", ⟨"s2", "e2", 5⟩)] "u1" "s1" "u2" "hola" none
        (Except.ok (mkMensaje "u1" "u2" "hola" "texto" 7 "t0")) =
      [Action.storeInsertMensaje "u1" "u2" "hola" "texto",
       Action.emit (Emit.toSocket "s2"
         (Payload.newMessage (mkMensaje "u1" "u2" "hola" "texto" 7 "t0"))),
       Action.emit (Emit.toSocket "s1" (Payload.messageSent 7 "t0" true))] := by
  have h1 := send_message_delivery_flags [] "u1" "s1" "u2" "hola" none [] 7 "t0"
  have h2 := send_message_delivery_flags [("u2", ⟨"s2", "e2", 5⟩)] "u1" "s1"
    "u2" "hola" none [] 7 "t0"
  exact ⟨(h1.1 rfl).1, (h1.1 rfl).2, h2.2 ⟨"s2", "e2", 5⟩ rfl⟩

/-- Claim C3: a disconnect completes unconditionally — the handler's
result does not depend on the outcome of the best-effort Store "mark
offline" update, the user's registry entry is removed, and each other
socket receives exactly one `user_offline` payload while the departing
socket receives none. -/
theorem disconnect_completes_unconditionally
    (r1 r2 : Except String Unit) (reg : Registry)
    (userId socketId osid : String) (hos : osid ≠ socketId) :
    disconnectHandler r1 reg userId socketId =
      disconnectHandler r2 reg userId socketId
    ∧ mapGet (disconnectHandler r1 reg userId socketId).1 userId = none
    ∧ userId ∉ mapKeys (disconnectHandler r1 reg userId socketId).1
    ∧ receivedPayloads
        (emitsOf (disconnectHandler r1 reg userId socketId).2) osid =
      [Payload.userOffline userId]
    ∧ receivedPayloads
        (emitsOf (disconnectHandler r1 reg userId socketId).2) socketId
      = [] := by
  refine ⟨?_, ?_, ?_, ?_, ?_⟩
  · cases r1 <;> cases r2 <;> rfl
  · cases r1 <;> exact mapGet_mapDelete_self reg userId
  · cases r1 <;> exact not_mem_mapKeys_mapDelete reg userId
  · cases r1 <;>
      simp [disconnectHandler, emitsOf, receivedPayloads, receives,
        fun h => hos h]
  · cases r1 <;>
      simp [disconnectHandler, emitsOf, receivedPayloads, receives]

theorem disconnect_completes_unconditionally_witness :
    mapGet (disconnectHandler (Except.error "db")
      [("u1", ⟨"s1", "e1", 0⟩)] "u1" "s1").1 "u1" = none
    ∧ receivedPayloads (emitsOf (disconnectHandler (Except.error "db")
        [("u1", ⟨"s1", "e1", 0⟩)] "u1" "s1").2) "s2" =
      [Payload.userOffline "u1"] := by
  have h := disconnect_completes_unconditionally (Except.error "db")
    (Except.ok ()) [("u1", ⟨"s1", "e1", 0⟩)] "u1" "s1" "s2" (by decide)
  exact ⟨h.2.1, h.2.2.2.1⟩

/-- Claim C4: `register` twice for the same userId leaves exactly one
registry entry for it, reachable at the second handle (last-write-wins),
and under the `Map` key invariant no user ever has more than one entry. -/
theorem register_last_write_wins (m : Registry) (u : String)
    (h1 h2 : ConnInfo) (hnd : NodupKeys m) :
    mapGet (mapSet (mapSet m u h1) u h2) u = some h2
    ∧ countKey (mapSet (mapSet m u h1) u h2) u = 1
    ∧ ∀ k, countKey (mapSet (mapSet m u h1) u h2) k ≤ 1 := by
  refine ⟨mapGet_mapSet_self _ _ _, ?_, ?_⟩
  · exact countKey_mapSet_self _ _ _ (nodupKeys_mapSet _ _ _ hnd)
  · intro k
    exact countKey_le_one_of_nodup _ _
      (nodupKeys_mapSet _ _ _ (nodupKeys_mapSet _ _ _ hnd))

theorem register_last_write_wins_witness :
    mapGet (mapSet (mapSet [("a", ⟨"sa", "ea", 0⟩)] "b" ⟨"s1", "e1", 1⟩)
      "b" ⟨"s2", "e2", 2⟩) "b" = some ⟨"s2", "e2", 2⟩
    ∧ countKey (mapSet (mapSet [("a", ⟨"sa", "ea", 0⟩)] "b" ⟨"s1", "e1", 1⟩)
        "b" ⟨"s2", "e2", 2⟩) "b" = 1
    ∧ countKey (mapSet (mapSet [("a", ⟨"sa", "ea", 0⟩)] "b" ⟨"s1", "e1", 1⟩)
        "b" ⟨"s2", "e2", 2⟩) "a" ≤ 1 := by
  have h := register_last_write_wins [("a", ⟨"sa", "ea", 0⟩)] "b"
    ⟨"s1", "e1", 1⟩ ⟨"s2", "e2", 2⟩ (by decide)
  exact ⟨h.1, h.2.1, h.2.2 "a"⟩

/-- Claim C5: `unregister` is idempotent — deleting an absent user is a
no-op on the whole registry state, deleting twice equals deleting once,
and the second call leaves `count()` unchanged. -/
theorem unregister_idempotent (m : Registry) (u : String) :
    mapDelete (mapDelete m u) u = mapDelete m u
    ∧ (mapGet m u = none → mapDelete m u = m)
    ∧ mapSize (mapDelete (mapDelete m u) u) = mapSize (mapDelete m u) := by
  refine ⟨mapDelete_idem m u, mapDelete_of_get_none m u, ?_⟩
  rw [mapDelete_idem]

theorem unregister_idempotent_witness :
    mapDelete [("a", ⟨"sa", "ea", 0⟩)] "b" = [("a", ⟨"sa", "ea", 0⟩)]
    ∧ mapDelete (mapDelete [("a", ⟨"sa", "ea", 0⟩)] "b") "b" =
        mapDelete [("a", ⟨"sa", "ea", 0⟩)] "b" := by
  have h := unregister_idempotent [("a", ⟨"sa", "ea", 0⟩)] "b"
  exact ⟨h.2.1 rfl, h.1⟩

/-- Claim C6: a connection whose handshake token fails verification (the
codec yields no identity: missing, malformed, bad signature or expired
token) is rejected with the authentication error before the connection
handler runs, and the presence registry is left exactly as it was. -/
theorem auth_failure_never_registered (reg : Registry) (socketId : String)
    (now : Nat) :
    connectionAttempt none reg socketId now =
      (reg, Except.error "Autenticación fallida")
    ∧ ∀ u, mapGet (connectionAttempt none reg socketId now).1 u =
        mapGet reg u :=
  ⟨rfl, fun _ => rfl⟩

/-- Claim C7 (corrected), counterexample: when the contacts query reports
a Store error the handler responds with HTTP 200 (the demo fallback), not
with the 500 the claim states. -/
theorem contacts_store_error_not_500 :
    (getContacts (Except.error "db error") 0 (fun _ => "")).1 = 200
    ∧ ¬ (getContacts (Except.error "db error") 0 (fun _ => "")).1 = 500 := by
  exact ⟨rfl, by decide⟩

/-- Claim C7 (amended): `GET /api/contacts` responds 200 on both modelled
paths — on a Store error with the hard-coded demo contact list, on
success with the rows formatted to `{id, username, foto, ultimo_acceso,
online}`; the 500 of the catch block fires only when the handler itself
throws. -/
theorem contacts_responses (res : Except String (List ContactoRow))
    (e : String) (rows : List ContactoRow) (now : Int)
    (localeDateStr : Int → String) :
    (getContacts res now localeDateStr).1 = 200
    ∧ getContacts (Except.error e) now localeDateStr =
        (200, ContactsBody.demo demoContacts)
    ∧ getContacts (Except.ok rows) now localeDateStr =
        (200, ContactsBody.formatted
          (rows.map (formatContact now localeDateStr))) := by
  refine ⟨?_, rfl, rfl⟩
  cases res <;> rfl

/-- Claim C8: a search whose term is absent, empty or shorter than two
characters after trimming is answered 400 with the validation message and
performs no Store call at all. -/
theorem search_short_term_rejected (userId : String)
    (username : Option String) (storeRes : Except String (List SearchRow))
    (h : (jsTrim (username.getD "")).length < 2) :
    usersSearchHandler userId username storeRes =
      ([], 400,
       SearchBody.badRequest
         "El término de búsqueda debe tener al menos 2 caracteres") := by
  unfold usersSearchHandler
  rw [if_pos (Or.inr h)]

theorem search_short_term_rejected_witness :
    usersSearchHandler "u1" (some " a ") (Except.ok []) =
      ([], 400,
       SearchBody.badRequest
         "El término de búsqueda debe tener al menos 2 caracteres")
    ∧ usersSearchHandler "u1" none (Except.error "db") =
      ([], 400,
       SearchBody.badRequest
         "El término de búsqueda debe tener al menos 2 caracteres") :=
  ⟨search_short_term_rejected "u1" (some " a ") (Except.ok []) (by decide),
   search_short_term_rejected "u1" none (Except.error "db") (by decide)⟩

/-- Claim C9 (corrected), counterexample: with an empty `contacto_id`
equal to an empty caller userId the request is rejected by the earlier
required-field guard, so the 400 carries 'ID del contacto es requerido',
not 'No puedes agregarte a ti mismo' (no relation is created either
way). -/
theorem add_self_empty_id_message :
    addContact "" (some "") (Except.ok none) (Except.ok false)
      (Except.ok ()) = ([], 400, "ID del contacto es requerido")
    ∧ "ID del contacto es requerido" ≠ "No puedes agregarte a ti mismo" := by
  exact ⟨rfl, by decide⟩

/-- Claim C9 (amended): for every request whose `contacto_id` is
non-empty and equals the caller's own userId, the handler answers 400
with 'No puedes agregarte a ti mismo' and makes no Store call, so no
contact relation is created. -/
theorem add_self_rejected (userId : String)
    (r1 : Except String (Option String)) (r2 : Except String Bool)
    (r3 : Except String Unit) (h : userId ≠ "") :
    addContact userId (some userId) r1 r2 r3 =
      ([], 400, "No puedes agregarte a ti mismo") := by
  simp [addContact, h]

theorem add_self_rejected_witness :
    addContact "u1" (some "u1") (Except.ok (some "n")) (Except.ok false)
      (Except.ok ()) = ([], 400, "No puedes agregarte a ti mismo") :=
  add_self_rejected "u1" (Except.ok (some "n")) (Except.ok false)
    (Except.ok ()) (by decide)

/-- Claim C10: on a successful handshake the `users_online` snapshot sent
to the new socket is computed from the registry *after* the new entry is
inserted, so its users list contains the connecting user's id and its
count is at least 1; the `user_online` broadcast is addressed to every
socket except the new one. -/
theorem connection_snapshot_after_register (reg : Registry)
    (userId email socketId : String) (now : Nat) (osid : String)
    (hos : osid ≠ socketId) :
    (connectionAttempt (some (userId, email)) reg socketId now).2 =
      Except.ok
        [Emit.broadcastExcept socketId (Payload.userOnline userId email),
         Emit.toSocket socketId
           (Payload.usersOnline
             (mapSize (connectionAttempt (some (userId, email)) reg
               socketId now).1)
             (mapKeys (connectionAttempt (some (userId, email)) reg
               socketId now).1))]
    ∧ (connectionAttempt (some (userId, email)) reg socketId now).1 =
        mapSet reg userId ⟨socketId, email, now⟩
    ∧ userId ∈
        mapKeys (connectionAttempt (some (userId, email)) reg socketId now).1
    ∧ 1 ≤ mapSize (connectionAttempt (some (userId, email)) reg socketId now).1
    ∧ receives (Emit.broadcastExcept socketId
        (Payload.userOnline userId email)) socketId = none
    ∧ receives (Emit.broadcastExcept socketId
        (Payload.userOnline userId email)) osid =
      some (Payload.userOnline userId email) := by
  refine ⟨rfl, rfl, ?_, ?_, ?_, ?_⟩
  · exact (mem_mapKeys_mapSet reg userId userId _).mpr (Or.inl rfl)
  · exact mapSize_pos_mapSet reg userId _
  · simp [receives]
  · simp [receives, hos]

theorem connection_snapshot_after_register_witness :
    "u1" ∈ mapKeys (connectionAttempt (some ("u1", "e1")) [] "s1" 0).1
    ∧ receives (Emit.broadcastExcept "s1" (Payload.userOnline "u1" "e1"))
        "s2" = some (Payload.userOnline "u1" "e1") := by
  have h := connection_snapshot_after_register [] "u1" "e1" "s1" 0 "s2"
    (by decide)
  exact ⟨h.2.2.1, h.2.2.2.2.2⟩

end ChatServer
